import Mathlib

/-!
Verification of the aduro-ai-demo conversational intake pipeline.

Shallow embedding of the core logic of the `aduro-ai-demo` repository:

* `aduro_agents/cgm_collector.py` — CGM reading format gate, ingestion batch
  loop, reading-type inference, and the glucose-bound check of
  `insert_cgm_reading`;
* `aduro_agents/profile_updater.py` — the profile-field validation engine
  `validate_field_value` and its `ALLOWED_FIELDS` rules table;
* `aduro_agents/orchestrator.py` — the phase state machine
  `Orchestrator.handle_message` with its sub-agent and database collaborators
  modelled as oracles.

Strings are modelled as Lean `String`/`List Char`; Python character classes
(`\s`, `\d`) are modelled over their ASCII members, which cover every string
these claims touch.  Collaborators (the LLM sub-agents, the SQLite store) are
modelled as explicit oracle parameters whose outcomes range over success and
each exception class the source distinguishes.
-/

namespace Aduro

/-! ## Python string primitives (ASCII fragment)

`isPySpace` models `\s` (and `str.strip`'s default character set) on ASCII:
space, tab, newline, carriage return, vertical tab, form feed.
`isPyDigit` models `\d` on ASCII digits. -/

def isPySpace (c : Char) : Bool :=
  c.toNat == 32 || c.toNat == 9 || c.toNat == 10 || c.toNat == 13 ||
    c.toNat == 11 || c.toNat == 12

def isPyDigit (c : Char) : Bool :=
  48 ≤ c.toNat && c.toNat ≤ 57

/-- Models Python `str.split(sep)` for a single-character separator: splits
on every occurrence, keeping empty chunks, and returns `[[]]` on the empty
string (`"".split(',') == ['']`). -/
def splitOnCharCL (sep : Char) : List Char → List (List Char)
  | [] => [[]]
  | c :: rest =>
    if c = sep then [] :: splitOnCharCL sep rest
    else
      match splitOnCharCL sep rest with
      | t :: ts => (c :: t) :: ts
      | [] => [[c]]

/-- Models Python `str.split(',')`. -/
def splitOnCommaCL : List Char → List (List Char) := splitOnCharCL ','

/-- Models Python `str.strip()` (no argument): drop leading and trailing
whitespace. -/
def stripCL (l : List Char) : List Char :=
  ((l.dropWhile isPySpace).reverse.dropWhile isPySpace).reverse

/-- One comma-separated chunk has the shape `\s*\d+\s*`: optional leading
whitespace, a nonempty maximal digit run, then only whitespace. -/
def chunkOk (t : List Char) : Bool :=
  let u := t.dropWhile isPySpace
  decide (u.takeWhile isPyDigit ≠ []) && (u.dropWhile isPyDigit).all isPySpace

/-- Models `re.match(READING_PATTERN, s)` for
`READING_PATTERN = r'^\s*\d+\s*(?:,\s*\d+\s*)*$'`
(cgm_collector.py line 15): a string matches the anchored pattern exactly
when every comma-separated chunk has the shape `\s*\d+\s*` (chunks contain
no comma, so the comma-separated decomposition of any match is unique; the
pattern's trailing `\s*` absorbs a trailing newline, so Python's `$`
subtlety does not change the matched language). -/
def validateReadingsFormat (s : String) : Bool :=
  (splitOnCommaCL s.data).all chunkOk

/-- Digit run to its numeric value (the value `float()` denotes on an
all-digit token). -/
def digitsToNat (l : List Char) : Nat :=
  l.foldl (fun a c => 10 * a + (c.toNat - 48)) 0

/-- Models `float(t.strip())` on the token shapes admitted by the format
gate: strips the token and parses a nonempty all-digit run; `none` models the
`ValueError` that `float` raises on a token that is not a plain digit run.
(Full Python float syntax — decimals, exponents — is not modelled: the
format gate admits only digit tokens, and no claim reaches `float()` with any
other shape.) -/
def pyFloatTok (t : List Char) : Option Nat :=
  let s := stripCL t
  if s ≠ [] ∧ s.all isPyDigit then some (digitsToNat s) else none

/-- Models the evaluation of the list comprehension
`[float(r.strip()) for r in readings_input.split(',')]`: parses tokens left
to right, and `none` models the `ValueError` that aborts the comprehension at
the first unparsable token. -/
def parseTokens : List (List Char) → Option (List Nat)
  | [] => some []
  | t :: ts =>
    match pyFloatTok t, parseTokens ts with
    | some v, some vs => some (v :: vs)
    | _, _ => none

/-! ## Substring search (models Python's `in` on strings) -/

def isPrefixCL : List Char → List Char → Bool
  | [], _ => true
  | _ :: _, [] => false
  | a :: as, b :: bs => a == b && isPrefixCL as bs

def isInfixCL (needle : List Char) : List Char → Bool
  | [] => isPrefixCL needle []
  | b :: bs => isPrefixCL needle (b :: bs) || isInfixCL needle bs

/-- Models Python `needle in hay` for strings. -/
def strContains (hay needle : String) : Bool :=
  isInfixCL needle.data hay.data

/-! ## CGM ingestion (`aduro_agents/cgm_collector.py`) -/

/-- Constant `MAX_RETRIES = 2` (cgm_collector.py line 14). -/
def MAX_RETRIES : Nat := 2

/-- The success marker tested by `_process_valid_readings` line 181. -/
def successMarker : String := "Successfully stored CGM reading"

/-- The meal-plan nudge appended by `_process_valid_readings` line 205. -/
def mealPlanNudge : String :=
  "Next, I can generate your meal plan—just let me know when you're ready."

/-- Python `str(float(n))` for the integral values the gate admits:
`95.0`, `110.0`, …  (used in the `- Reading {reading_val}: …` detail
lines). -/
def fmtFloat (n : Nat) : String := toString n ++ ".0"

def afterFirstColon : List Char → List Char
  | [] => []
  | c :: rest => if c = ':' then rest else afterFirstColon rest

def stripString (s : String) : String := ⟨stripCL s.data⟩

/-- Models `result.split(':', 1)[-1].strip() if ':' in result else result`
(cgm_collector.py line 185). -/
def errSummary (r : String) : String :=
  if (':' ∈ r.data) then stripString ⟨afterFirstColon r.data⟩ else r

/-- Models `"\n".join(parts)`. -/
def joinLines : List String → String
  | [] => ""
  | [a] => a
  | a :: b :: rest => a ++ "\n" ++ joinLines (b :: rest)

/-- The observable outcome of one `_process_valid_readings` run:
the `insert_cgm_reading` invocations it makes (in order, with their
arguments), the `response_parts` list it builds, and the response string it
returns.  (The function also resets `self.retry_count` to 0 on entry; that
instance attribute is modelled separately with `cgmProcessInput`.) -/
structure IngestOutcome where
  calls : List (Int × Nat)
  parts : List String
  response : String
  deriving Repr, DecidableEq

/-- The strings returned by the `insert_cgm_reading` calls of the
`_process_valid_readings` loop (cgm_collector.py lines 168-207): `store i` is
the string the `i`-th call returns, one call per parsed value, in order; the
batch is never aborted on a per-reading failure. -/
def ingestResults (vals : List Nat) (store : Nat → String) : List String :=
  (List.range vals.length).map store

/-- The loop's `success_count`: results containing the success marker. -/
def ingestSuccessCount (vals : List Nat) (store : Nat → String) : Nat :=
  (ingestResults vals store).countP (fun r => strContains r successMarker)

/-- The loop's `error_messages` list: one
`- Reading {value}: {summary}` line per non-success result, in order. -/
def ingestErrors (vals : List Nat) (store : Nat → String) : List String :=
  (vals.zip (ingestResults vals store)).filterMap (fun p =>
    if strContains p.2 successMarker then none
    else some ("- Reading " ++ fmtFloat p.1 ++ ": " ++ errSummary p.2))

/-- The leading summary line of `response_parts` (lines 189-192). -/
def ingestLead (userId : Int) (vals : List Nat) (store : Nat → String) :
    List String :=
  if 0 < ingestSuccessCount vals store then
    ["✅ Saved " ++ toString (ingestSuccessCount vals store) ++ " out of " ++
      toString vals.length ++ " readings for user #" ++ toString userId ++ "."]
  else if 0 < vals.length then
    ["⚠️ Failed to save any of the " ++ toString vals.length ++
      " readings for user #" ++ toString userId ++ "."]
  else []

/-- The `response_parts` list after the `Details:` block is appended (lines
194-196). -/
def ingestBaseParts (userId : Int) (vals : List Nat) (store : Nat → String) :
    List String :=
  ingestLead userId vals store ++
    (if ingestErrors vals store ≠ [] then "Details:" :: ingestErrors vals store
     else [])

/-- The `response_parts` list after the conditional meal-plan nudge is
appended (lines 203-205). -/
def ingestParts (userId : Int) (vals : List Nat) (store : Nat → String) :
    List String :=
  ingestBaseParts userId vals store ++
    (if ingestSuccessCount vals store = vals.length ∧
        0 < ingestSuccessCount vals store then [mealPlanNudge] else [])

/-- The loop and aggregation of `_process_valid_readings`
(cgm_collector.py lines 168-207), assembled from the locals above. -/
def processCore (userId : Int) (vals : List Nat) (store : Nat → String) :
    IngestOutcome :=
  { calls := vals.map (fun v => (userId, v)),
    parts := ingestParts userId vals store,
    response :=
      if ingestBaseParts userId vals store = [] ∧ 0 < vals.length then
        "No readings were processed or results available."
      else if vals.length = 0 then "No readings provided to process."
      else joinLines (ingestParts userId vals store) }

/-- Method `CGMCollector._process_valid_readings` (cgm_collector.py lines 164–207):
splits the raw input on commas, parses every token with `float`, then runs
the per-reading store loop.  `Except.error ()` models the uncaught
`ValueError` raised by `float()` on an unparsable token (no such token exists
on gate-matching input). -/
def processValidReadings (userId : Int) (readingsInput : String)
    (store : Nat → String) : Except Unit IngestOutcome :=
  match parseTokens (splitOnCommaCL readingsInput.data) with
  | none => .error ()
  | some vals => .ok (processCore userId vals store)

/-- Modelled from the spec: the format-gated ingestion step of the
CGM-collection flow (spec §4.2 and the repository's
`test_cgm_collector.py`).  The current `CGMCollector.process_input` in src
delegates this wholesale to LLM instructions, so the gate's caller is not in
src; per the spec, a submission failing `_validate_readings_format` is
rejected with the format-correction prompt before any parse or store call,
and a matching submission is handed to `_process_valid_readings`. -/
def gatedIngest (userId : Int) (s : String) (store : Nat → String) :
    List (Int × Nat) × String :=
  if validateReadingsFormat s then
    match processValidReadings userId s store with
    | .ok out => (out.calls, out.response)
    | .error _ => ([], "error")
  else
    ([], "I didn't understand. Send readings like `95,110,102`.")

/-! ## Reading-type inference (`_infer_reading_type`, cgm_collector.py 24–42)

A `datetime.time` value is modelled as microseconds since midnight, the full
resolution of Python's `time`; `time(h, m)` is `(h*3600 + m*60) * 10^6`.
The `MEAL_TIMES` bands are closed intervals between `time` values, compared
with `start <= current_time <= end`, and the dict is iterated in insertion
order (breakfast, lunch, dinner). -/

def timeUS (h m : Nat) : Nat := (h * 3600 + m * 60) * 1000000

def inferReadingType (t : Nat) : String :=
  if timeUS 6 0 ≤ t ∧ t ≤ timeUS 10 59 then "breakfast"
  else if timeUS 11 0 ≤ t ∧ t ≤ timeUS 15 59 then "lunch"
  else if timeUS 16 0 ≤ t ∧ t ≤ timeUS 21 59 then "dinner"
  else "snack"

/-! ## `insert_cgm_reading` (cgm_collector.py lines 44–96)

The glucose value arrives as a Python number (the `isinstance(glucose_value,
int | float)` guard holds by the type of the parameter here, which models
exact numeric comparison; the source's comparisons `0 <= glucose_value <=
1000` are exact for these bounds).  `tsGiven` models the optional `timestamp`
argument: `none` = not provided (the ingestion path provides none), `some
valid` = provided, with `valid` the outcome of `datetime.fromisoformat`.
`dbCall` models `db_manager.insert_cgm_readings`: `.error ()` is a raised
exception (e.g. the `AttributeError` for the missing `DatabaseManager`
method, caught by the function's `except Exception`), `.ok b` a returned
success flag.  The second component lists the readings handed to the store
(the write attempt). -/
def insertCgmReading (glucose : ℚ) (tsGiven : Option Bool)
    (dbCall : Except String Bool) : String × List ℚ :=
  if ¬(0 ≤ glucose ∧ glucose ≤ 1000) then
    ("Error: Glucose value must be between 0 and 1000 mg/dL", [])
  else if tsGiven = some false then
    ("Error: Invalid timestamp format. Use ISO format (e.g., '2023-01-01T12:00:00')",
      [])
  else
    match dbCall with
    | .ok true => ("Successfully stored CGM reading", [glucose])
    | .ok false => ("Failed to store CGM reading", [glucose])
    | .error e => ("Error storing CGM reading: " ++ e, [glucose])

/-! ## ASCII case helpers (Python `str.lower` / `str.title` on ASCII) -/

def lowerChar (c : Char) : Char :=
  if 65 ≤ c.toNat ∧ c.toNat ≤ 90 then Char.ofNat (c.toNat + 32) else c

def upperChar (c : Char) : Char :=
  if 97 ≤ c.toNat ∧ c.toNat ≤ 122 then Char.ofNat (c.toNat - 32) else c

def isAsciiAlpha (c : Char) : Bool :=
  (65 ≤ c.toNat && c.toNat ≤ 90) || (97 ≤ c.toNat && c.toNat ≤ 122)

/-- Models Python `str.lower()` on ASCII. -/
def lowerAscii (s : String) : String := ⟨s.data.map lowerChar⟩

def titleCL : List Char → Bool → List Char
  | [], _ => []
  | c :: rest, prevAlpha =>
    (if isAsciiAlpha c then (if prevAlpha then lowerChar c else upperChar c) else c)
      :: titleCL rest (isAsciiAlpha c)

/-- Models Python `str.title()` on ASCII: upper-cases every letter that
follows a non-letter, lower-cases the other letters. -/
def pyTitle (s : String) : String := ⟨titleCL s.data false⟩

/-- Models `s.replace('_', ' ')`. -/
def underscoreToSpace (s : String) : String :=
  ⟨s.data.map (fun c => if c = '_' then ' ' else c)⟩

/-! ## Profile field validation (`aduro_agents/profile_updater.py`) -/

/-- Models `re.match(r'^[^@]+@[^@]+\.[^@]+$', x)`: the string splits at a
unique `@` into a nonempty local part and a domain containing a dot that is
neither the first nor the last domain character (`[^@]+` on each side of the
dot; splitting on `@` yields exactly two chunks iff the string has exactly
one `@`, which the pattern forces). -/
def emailOk (s : String) : Bool :=
  match splitOnCharCL '@' s.data with
  | [a, r] => decide (a ≠ []) && ((r.drop 1).dropLast).contains '.'
  | _ => false

/-- Models `re.match(r'^\d{4}-\d{2}-\d{2}$', x)`. -/
def dobShape (s : String) : Bool :=
  match s.data with
  | [y1, y2, y3, y4, h1, m1, m2, h2, d1, d2] =>
    isPyDigit y1 && isPyDigit y2 && isPyDigit y3 && isPyDigit y4 &&
    (h1 == '-') && isPyDigit m1 && isPyDigit m2 && (h2 == '-') &&
    isPyDigit d1 && isPyDigit d2
  | _ => false

def isLeapYear (y : Nat) : Bool :=
  (y % 4 == 0 && y % 100 != 0) || y % 400 == 0

def daysInMonth (y m : Nat) : Nat :=
  if m = 1 ∨ m = 3 ∨ m = 5 ∨ m = 7 ∨ m = 8 ∨ m = 10 ∨ m = 12 then 31
  else if m = 4 ∨ m = 6 ∨ m = 9 ∨ m = 11 then 30
  else if isLeapYear y then 29 else 28

/-- Models the success of `datetime.strptime(x, '%Y-%m-%d')` on a string
already matching `^\d{4}-\d{2}-\d{2}$`: the fields must form a real
proleptic-Gregorian calendar date with `MINYEAR = 1`. -/
def dobValid (s : String) : Bool :=
  match s.data with
  | [y1, y2, y3, y4, _, m1, m2, _, d1, d2] =>
    let y := digitsToNat [y1, y2, y3, y4]
    let m := digitsToNat [m1, m2]
    let d := digitsToNat [d1, d2]
    decide (1 ≤ y) && decide (1 ≤ m ∧ m ≤ 12) &&
      decide (1 ≤ d ∧ d ≤ daysInMonth y m)
  | _ => false

/-- The outcome of running one `ALLOWED_FIELDS` validator lambda: `.ok b` is
a returned truth value, `.error e` a raised exception (caught by
`validate_field_value` and rendered as `Validation error for …`). -/
abbrev VOut := Except String Bool

/-- One entry of the `ALLOWED_FIELDS` table (profile_updater.py lines
36–86): the `type` key is always `str` and is never consulted by
`validate_field_value`, so it is omitted. -/
structure FieldInfo where
  required : Bool
  validator : String → VOut
  error : String

/-- Validator for `first_name` / `last_name` / `city`:
`lambda x: bool(x.strip()) and len(x.strip()) >= 2`. -/
def minLen2Validator (x : String) : VOut :=
  let t := stripString x
  .ok (decide (t ≠ "") && decide (2 ≤ t.length))

/-- Validator for `email`. -/
def emailValidator (x : String) : VOut := .ok (emailOk x)

/-- Validator for `date_of_birth`:
`lambda x: bool(re.match(...)) and bool(datetime.strptime(x, '%Y-%m-%d'))`.
A shape-matching string naming an impossible date makes `strptime` raise; the
exception's text is not modelled (no claim depends on it). -/
def dobValidator (x : String) : VOut :=
  if ¬ dobShape x then .ok false
  else if dobValid x then .ok true
  else .error "invalid date"

/-- Validator for `dietary_preference`:
`lambda x: x.lower() in ['vegetarian', 'non-vegetarian', 'vegan']`. -/
def dietValidator (x : String) : VOut :=
  .ok (["vegetarian", "non-vegetarian", "vegan"].contains (lowerAscii x))

/-- Validator for the free-text fields: `lambda x: True`. -/
def freeTextValidator (_ : String) : VOut := .ok true

/-- Association-list lookup, modelling Python dict lookup / `in`. -/
def alookup {α : Type} : List (String × α) → String → Option α
  | [], _ => none
  | (k, v) :: rest, key => if k = key then some v else alookup rest key

/-- The `ALLOWED_FIELDS` table (profile_updater.py lines 36–86), in source
order. -/
def allowedFields : List (String × FieldInfo) :=
  [("first_name",
     ⟨true, minLen2Validator, "First name must be at least 2 characters long"⟩),
   ("last_name",
     ⟨true, minLen2Validator, "Last name must be at least 2 characters long"⟩),
   ("city",
     ⟨true, minLen2Validator, "City must be at least 2 characters long"⟩),
   ("email",
     ⟨true, emailValidator, "Please enter a valid email address"⟩),
   ("date_of_birth",
     ⟨true, dobValidator, "Please enter a valid date in YYYY-MM-DD format"⟩),
   ("dietary_preference",
     ⟨false, dietValidator,
       "Dietary preference must be one of: vegetarian, non-vegetarian, vegan"⟩),
   ("medical_conditions", ⟨false, freeTextValidator, ""⟩),
   ("physical_limitations", ⟨false, freeTextValidator, ""⟩)]

/-- Python truthiness of an optional string (`not field_value`): `None` and
the empty string are falsy. -/
def strTruthy : Option String → Bool
  | some s => decide (s ≠ "")
  | none => false

/-- Function `validate_field_value` (profile_updater.py lines 88–125).  The
Python function returns a pair `(is_valid, value-or-error)`, where the second
component may be the Python `None` (modelled as `Option.none`): an error
message when `is_valid` is false, the cleaned value (or `None` for an empty
optional field) when true.  `field_value` may be `None` (the caller passes
`None` for an empty message). -/
def validateFieldValue (fieldName : String) (fieldValue : Option String) :
    Bool × Option String :=
  match alookup allowedFields fieldName with
  | none => (false, some ("Invalid field: " ++ fieldName))
  | some info =>
    if info.required && !(strTruthy fieldValue) then
      (false, some (pyTitle (underscoreToSpace fieldName) ++ " is required"))
    else
      match fieldValue with
      | some raw =>
        let v := stripString raw
        if v = "" ∧ info.required = false then (true, none)
        else if v ≠ "" then
          match info.validator v with
          | .ok true => (true, some v)
          | .ok false =>
            (false, some (if info.error ≠ "" then info.error
                          else "Invalid value for " ++ fieldName))
          | .error e =>
            (false, some ("Validation error for " ++ fieldName ++ ": " ++ e))
        else (true, some v)
      | none => (true, none)

/-! ## Python values and the conversation context

`PyVal` models the values the orchestrator's context dictionary holds.
`pyIsInstInt` models `isinstance(v, int)`: Python's `bool` is a subclass of
`int`, so both `int` and `bool` values pass. -/

inductive PyVal where
  | int (n : Int)
  | bool (b : Bool)
  | str (s : String)
  | null
  deriving Repr, DecidableEq

def pyTruthy : PyVal → Bool
  | .int n => decide (n ≠ 0)
  | .bool b => b
  | .str s => decide (s ≠ "")
  | .null => false

def pyIsInstInt : PyVal → Bool
  | .int _ => true
  | .bool _ => true
  | _ => false

/-- The mutable context dictionary, as an insertion-ordered association
list. -/
abbrev Ctx := List (String × PyVal)

def ctxGet : Ctx → String → Option PyVal
  | [], _ => none
  | (k, v) :: rest, key => if k = key then some v else ctxGet rest key

/-- Models `key in context`. -/
def ctxHas (c : Ctx) (k : String) : Bool := (ctxGet c k).isSome

/-- Models `context[key] = value`: overwrite in place, else append (Python
dicts keep insertion order). -/
def ctxSet : Ctx → String → PyVal → Ctx
  | [], k, v => [(k, v)]
  | (k', v') :: rest, k, v =>
    if k' = k then (k, v) :: rest else (k', v') :: ctxSet rest k v

/-- Models the truthiness of `context.get(key, False)`. -/
def ctxFlag (c : Ctx) (k : String) : Bool :=
  match ctxGet c k with
  | some v => pyTruthy v
  | none => false

/-! ## Current `CGMCollector.process_input` (cgm_collector.py lines 130–158)

The method validates `user_id`, then delegates the whole interaction to the
LLM agent run (`self.run`), an external collaborator modelled as the oracle
`agentRun` (`.ok out` = `final_output`, `.error e` = a raised exception whose
text is `e`).  It reads `self.retry_count` never and writes it never; the
returned first component is the attribute's value after the call.
`Except.error` models the `ValueError` the method raises on a missing or
invalid `user_id`. -/
def cgmProcessInput (retryCount : Nat) (userId : Option PyVal)
    (agentRun : Except String String) : Except String (Nat × String) :=
  if (match userId with
      | some v => !(pyTruthy v) || !(pyIsInstInt v)
      | none => true) then
    .error "Authentication required. Please provide a valid user_id for CGMCollector.process_input."
  else
    .ok (retryCount,
      match agentRun with
      | .ok out => out
      | .error e => "Sorry, I encountered an issue while collecting CGM data: " ++ e)

/-! ## The orchestrator phase machine (`aduro_agents/orchestrator.py`) -/

/-- The fault classes distinguished by `handle_message`'s `except` clauses. -/
inductive Fault where
  | validation (msg : String)
  | database
  | unexpected
  deriving Repr, DecidableEq

/-- The user-facing text each `except` clause of `handle_message` returns
(orchestrator.py lines 188–196). -/
def faultText : Fault → String
  | .validation m => "⚠️ " ++ m
  | .database =>
    "⚠️ An error occurred while accessing your data. Please try again later."
  | .unexpected =>
    "⚠️ An unexpected error occurred. Our team has been notified."

/-- One collaborator invocation made during a `handle_message` call:
the four sub-agents' `process_input`, and the two database helpers. -/
inductive Call where
  | greeterCall
  | updaterCall
  | collectorCall
  | collectorStartCall
  | mealPlannerCall
  | checkCompleteCall
  | nextMissingCall
  deriving Repr, DecidableEq

/-- Oracle outcomes for the collaborators of one `handle_message` call (each
is invoked at most once per call).  `.error f` models a raised fault of class
`f`; sub-agent oracles that return normally produce response strings, the
database helpers a completeness flag and the next missing field name (`""` =
none). -/
structure Env where
  greeter : Except Fault String
  updater : Except Fault String
  collector : Except Fault String
  collectorStart : Except Fault String
  mealPlanner : Except Fault String
  checkComplete : Except Fault Bool
  nextMissing : Except Fault String

/-- The observable outcome of one `handle_message` call: the returned string,
the context as left by the call, the collaborator calls made (in order), and
which fault, if any, the top-level `except` clauses caught. -/
structure HMResult where
  response : String
  ctx : Ctx
  trace : List Call
  caught : Option Fault

def hmOk (r : String) (c : Ctx) (t : List Call) : HMResult :=
  ⟨r, c, t, none⟩

def hmCaught (f : Fault) (c : Ctx) (t : List Call) : HMResult :=
  ⟨faultText f, c, t, some f⟩

def profileCompleteSuffix : String :=
  "\n\nYour profile is now complete! Let's collect your CGM readings next."

/-- Methods `Orchestrator._handle_profile_phase` and
`_handle_profile_field_update` (orchestrator.py lines 198–243), with the
context threaded explicitly.  Mutations happen exactly where the source
assigns into `context`; a fault raised by a later collaborator call leaves
the mutations already applied in place and propagates to the top-level
catch. -/
def profilePhase (env : Env) (ctx : Ctx) : HMResult :=
  if ctxFlag ctx "awaiting_profile_field" ∧ ctxHas ctx "field_to_update" then
    match env.updater with
    | .error f => hmCaught f ctx [.updaterCall]
    | .ok resp =>
      if resp.startsWith "Error:" then hmOk resp ctx [.updaterCall]
      else
        let c1 := ctxSet ctx "awaiting_profile_field" (.bool false)
        match env.checkComplete with
        | .error f => hmCaught f c1 [.updaterCall, .checkCompleteCall]
        | .ok true =>
          hmOk (resp ++ profileCompleteSuffix)
            (ctxSet c1 "profile_complete" (.bool true))
            [.updaterCall, .checkCompleteCall]
        | .ok false =>
          match env.nextMissing with
          | .error f =>
            hmCaught f c1 [.updaterCall, .checkCompleteCall, .nextMissingCall]
          | .ok nf =>
            if nf ≠ "" then
              hmOk (resp ++ "\n\nWhat's your " ++ underscoreToSpace nf ++ "?")
                (ctxSet (ctxSet c1 "awaiting_profile_field" (.bool true))
                  "field_to_update" (.str nf))
                [.updaterCall, .checkCompleteCall, .nextMissingCall]
            else
              hmOk resp c1 [.updaterCall, .checkCompleteCall, .nextMissingCall]
  else
    match env.greeter with
    | .error f => hmCaught f ctx [.greeterCall]
    | .ok resp =>
      match env.checkComplete with
      | .error f => hmCaught f ctx [.greeterCall, .checkCompleteCall]
      | .ok true =>
        hmOk (resp ++ profileCompleteSuffix)
          (ctxSet ctx "profile_complete" (.bool true))
          [.greeterCall, .checkCompleteCall]
      | .ok false =>
        let c1 := ctxSet ctx "awaiting_profile_field" (.bool true)
        match env.nextMissing with
        | .error f =>
          hmCaught f c1 [.greeterCall, .checkCompleteCall, .nextMissingCall]
        | .ok nf =>
          if nf ≠ "" then
            hmOk (resp ++ "\n\nWhat's your " ++ underscoreToSpace nf ++ "?")
              (ctxSet c1 "field_to_update" (.str nf))
              [.greeterCall, .checkCompleteCall, .nextMissingCall]
          else
            hmOk resp c1 [.greeterCall, .checkCompleteCall, .nextMissingCall]

def cgmTransitionSuffix : String :=
  "\n\nNow that we have your CGM readings, I can create a personalized meal plan for you. Type 'plan' to generate your meal plan."

/-- Method `Orchestrator._handle_cgm_phase` (orchestrator.py lines
245–261). -/
def cgmPhase (env : Env) (ctx : Ctx) : HMResult :=
  if ctxFlag ctx "awaiting_cgm" then
    match env.collector with
    | .error f => hmCaught f ctx [.collectorCall]
    | .ok resp =>
      if strContains (lowerAscii resp) "success" ||
         strContains (lowerAscii resp) "thank" ||
         strContains (lowerAscii resp) "received" then
        hmOk (resp ++ cgmTransitionSuffix)
          (ctxSet (ctxSet ctx "cgm_collected" (.bool true))
            "awaiting_cgm" (.bool false))
          [.collectorCall]
      else hmOk resp ctx [.collectorCall]
  else
    match env.collectorStart with
    | .error f => hmCaught f ctx [.collectorStartCall]
    | .ok resp =>
      hmOk resp (ctxSet ctx "awaiting_cgm" (.bool true)) [.collectorStartCall]

/-- Method `Orchestrator._handle_meal_planning_phase` (orchestrator.py lines
263–280): `process_input` exists on the meal planner, and the method's own
`except Exception` converts any fault to an apology string, so nothing
reaches the top-level catch. -/
def mealPhase (env : Env) (ctx : Ctx) : HMResult :=
  match env.mealPlanner with
  | .error _ =>
    hmOk "I'm having trouble generating your meal plan right now. Please try again later."
      ctx [.mealPlannerCall]
  | .ok resp => hmOk resp ctx [.mealPlannerCall]

def authErrorMsg : String := "Missing or invalid user ID. Please re-authenticate."

/-- Method `Orchestrator.handle_message` (orchestrator.py lines 150–196).
The authentication check `'user_id' not in context or not
isinstance(context.get('user_id'), int)` raises `ValidationError`, caught by
the method's own `except ValidationError` and rendered with a `⚠️ ` prefix;
phase selection reads the truthiness of `context.get("profile_complete",
False)` and `context.get("cgm_collected", False)`.  The `message` argument
only flows into the collaborator calls, which the `Env` oracles absorb. -/
def handleMessage (env : Env) (ctx : Ctx) : HMResult :=
  match ctxGet ctx "user_id" with
  | none => hmCaught (.validation authErrorMsg) ctx []
  | some v =>
    if ¬ pyIsInstInt v then hmCaught (.validation authErrorMsg) ctx []
    else if ¬ ctxFlag ctx "profile_complete" then profilePhase env ctx
    else if ¬ ctxFlag ctx "cgm_collected" then cgmPhase env ctx
    else mealPhase env ctx

/-! ## Helper lemmas -/

theorem isPyDigit_not_space {c : Char} (h : isPyDigit c = true) :
    isPySpace c = false := by
  simp only [isPyDigit, Bool.and_eq_true, decide_eq_true_eq] at h
  simp only [isPySpace, Bool.or_eq_false_iff, beq_eq_false_iff_ne, ne_eq]
  omega

theorem splitOnCharCL_ne_nil (sep : Char) (l : List Char) :
    splitOnCharCL sep l ≠ [] := by
  induction l with
  | nil => simp [splitOnCharCL]
  | cons c rest ih =>
    simp only [splitOnCharCL]
    split
    · simp
    · split <;> simp

theorem dropWhile_all_sat {p : Char → Bool} :
    ∀ {l : List Char}, l.all p = true → l.dropWhile p = [] := by
  intro l h
  induction l with
  | nil => rfl
  | cons a t ih =>
    simp only [List.all_cons, Bool.and_eq_true] at h
    simp [List.dropWhile, h.1, ih h.2]

theorem dropWhile_append_all {p : Char → Bool} {l₁ l₂ : List Char}
    (h : l₁.all p = true) :
    (l₁ ++ l₂).dropWhile p = l₂.dropWhile p := by
  induction l₁ with
  | nil => rfl
  | cons a t ih =>
    simp only [List.all_cons, Bool.and_eq_true] at h
    simp [List.dropWhile, h.1, ih h.2]

theorem dropWhile_head_not {p : Char → Bool} {a : Char} {l : List Char}
    (h : p a = false) : (a :: l).dropWhile p = a :: l := by
  simp [List.dropWhile, h]

theorem dropWhile_all_not {p : Char → Bool} {l : List Char}
    (h : ∀ x ∈ l, p x = false) : l.dropWhile p = l := by
  cases l with
  | nil => rfl
  | cons a t => exact dropWhile_head_not (h a (List.mem_cons_self a t))

/-- On a chunk of shape `\s*\d+\s*`, `strip` returns exactly the digit
run. -/
theorem stripCL_of_chunkOk {t : List Char} (h : chunkOk t = true) :
    stripCL t = (t.dropWhile isPySpace).takeWhile isPyDigit ∧
    (t.dropWhile isPySpace).takeWhile isPyDigit ≠ [] ∧
    ((t.dropWhile isPySpace).takeWhile isPyDigit).all isPyDigit = true := by
  simp only [chunkOk, Bool.and_eq_true, decide_eq_true_eq] at h
  obtain ⟨hd, hr⟩ := h
  set u := t.dropWhile isPySpace with hu
  set d := u.takeWhile isPyDigit with hdd
  have hsplit : u = d ++ u.dropWhile isPyDigit := by
    rw [hdd]; exact (List.takeWhile_append_dropWhile isPyDigit u).symm
  have hdall : d.all isPyDigit = true := by
    rw [hdd]
    exact List.all_eq_true.mpr (fun x hx => List.mem_takeWhile_imp hx)
  refine ⟨?_, hd, hdall⟩
  -- stripCL t = reverse (dropWhile ws (reverse u))
  have h1 : stripCL t = ((u.reverse).dropWhile isPySpace).reverse := by
    simp [stripCL, hu]
  rw [h1, hsplit, List.reverse_append]
  have hrev : ((u.dropWhile isPyDigit).reverse).all isPySpace = true := by
    simp only [List.all_reverse]
    exact hr
  rw [dropWhile_append_all hrev]
  -- d is a nonempty digit run, so no element of its reverse is whitespace
  have hnot : ∀ x ∈ d.reverse, isPySpace x = false := by
    intro x hx
    exact isPyDigit_not_space (List.all_eq_true.mp hdall x (List.mem_reverse.mp hx))
  rw [dropWhile_all_not hnot, List.reverse_reverse]

/-- On a chunk admitted by the format gate, `float(t.strip())` succeeds. -/
theorem pyFloatTok_of_chunkOk {t : List Char} (h : chunkOk t = true) :
    pyFloatTok t = some (digitsToNat (stripCL t)) := by
  obtain ⟨hs, hne, hall⟩ := stripCL_of_chunkOk h
  simp [pyFloatTok, hs, hne, hall]

theorem parseTokens_of_all {l : List (List Char)}
    (h : ∀ t ∈ l, chunkOk t = true) :
    parseTokens l = some (l.map (fun t => digitsToNat (stripCL t))) := by
  induction l with
  | nil => rfl
  | cons a rest ih =>
    have ha := pyFloatTok_of_chunkOk (h a (List.mem_cons_self a rest))
    have hr := ih (fun t ht => h t (List.mem_cons_of_mem a ht))
    simp [parseTokens, ha, hr]

/-- On a gate-matching input, every comma chunk parses, so the comprehension
yields one value per token. -/
theorem parseTokens_of_format {s : String}
    (h : validateReadingsFormat s = true) :
    parseTokens (splitOnCommaCL s.data) =
      some ((splitOnCommaCL s.data).map (fun t => digitsToNat (stripCL t))) := by
  simp only [validateReadingsFormat, List.all_eq_true] at h
  exact parseTokens_of_all h

/-! ## Claim theorems -/

/-- C8: for every time of day (microseconds since midnight),
`_infer_reading_type` returns `"breakfast"` exactly on the closed band
06:00–10:59 (that is, `time(6, 0) ≤ t ≤ time(10, 59)`), `"lunch"` exactly on
11:00–15:59, `"dinner"` exactly on 16:00–21:59, and `"snack"` exactly on
every other time of day, so the function is total over the four labels. -/
theorem c8_infer_reading_type_bands (t : Nat) :
    (inferReadingType t = "breakfast" ↔ timeUS 6 0 ≤ t ∧ t ≤ timeUS 10 59) ∧
    (inferReadingType t = "lunch" ↔ timeUS 11 0 ≤ t ∧ t ≤ timeUS 15 59) ∧
    (inferReadingType t = "dinner" ↔ timeUS 16 0 ≤ t ∧ t ≤ timeUS 21 59) ∧
    (inferReadingType t = "snack" ↔
      ¬(timeUS 6 0 ≤ t ∧ t ≤ timeUS 10 59) ∧
      ¬(timeUS 11 0 ≤ t ∧ t ≤ timeUS 15 59) ∧
      ¬(timeUS 16 0 ≤ t ∧ t ≤ timeUS 21 59)) ∧
    (inferReadingType t = "breakfast" ∨ inferReadingType t = "lunch" ∨
      inferReadingType t = "dinner" ∨ inferReadingType t = "snack") := by
  unfold inferReadingType
  split_ifs with h1 h2 h3
  · exact ⟨iff_of_true rfl h1,
      iff_of_false (by decide)
        (fun h => by simp only [timeUS] at h1 h; omega),
      iff_of_false (by decide)
        (fun h => by simp only [timeUS] at h1 h; omega),
      iff_of_false (by decide) (fun h => h.1 h1),
      Or.inl rfl⟩
  · exact ⟨iff_of_false (by decide) h1,
      iff_of_true rfl h2,
      iff_of_false (by decide)
        (fun h => by simp only [timeUS] at h2 h; omega),
      iff_of_false (by decide) (fun h => h.2.1 h2),
      Or.inr (Or.inl rfl)⟩
  · exact ⟨iff_of_false (by decide) h1,
      iff_of_false (by decide) h2,
      iff_of_true rfl h3,
      iff_of_false (by decide) (fun h => h.2.2 h3),
      Or.inr (Or.inr (Or.inl rfl))⟩
  · exact ⟨iff_of_false (by decide) h1,
      iff_of_false (by decide) h2,
      iff_of_false (by decide) h3,
      iff_of_true rfl ⟨h1, h2, h3⟩,
      Or.inr (Or.inr (Or.inr rfl))⟩

/-- C9: `insert_cgm_reading` rejects every glucose value outside `[0, 1000]`
with an error message and no store interaction; on an in-range value with no
(or a valid) timestamp it hands exactly that reading to the store; and any
reading it hands to the store is in `[0, 1000]`. -/
theorem c9_glucose_bounds (g : ℚ) (ts : Option Bool) (db : Except String Bool) :
    (¬(0 ≤ g ∧ g ≤ 1000) →
      insertCgmReading g ts db =
        ("Error: Glucose value must be between 0 and 1000 mg/dL", [])) ∧
    ((0 ≤ g ∧ g ≤ 1000) → ts ≠ some false →
      (insertCgmReading g ts db).2 = [g]) ∧
    (∀ v ∈ (insertCgmReading g ts db).2, 0 ≤ v ∧ v ≤ 1000) := by
  by_cases h1 : 0 ≤ g ∧ g ≤ 1000
  · refine ⟨fun h => absurd h1 h, fun _ hts => ?_, fun v hv => ?_⟩
    · unfold insertCgmReading
      rw [if_neg (not_not_intro h1), if_neg hts]
      cases db with
      | ok b => cases b <;> rfl
      | error e => rfl
    · unfold insertCgmReading at hv
      rw [if_neg (not_not_intro h1)] at hv
      by_cases hts : ts = some false
      · rw [if_pos hts] at hv
        simp at hv
      · rw [if_neg hts] at hv
        cases db with
        | ok b =>
          cases b <;> simp at hv <;> exact hv ▸ h1
        | error e =>
          simp at hv
          exact hv ▸ h1
  · refine ⟨fun _ => ?_, fun h _ => absurd h h1, fun v hv => ?_⟩
    · unfold insertCgmReading
      rw [if_pos h1]
    · unfold insertCgmReading at hv
      rw [if_pos h1] at hv
      simp at hv

/-- Witness for C9 at the concrete inputs 1200 (out of range, rejected with
no store call) and 100 (in range, handed to the store). -/
theorem c9_glucose_bounds_witness :
    insertCgmReading 1200 none (.ok true) =
      ("Error: Glucose value must be between 0 and 1000 mg/dL", []) ∧
    (insertCgmReading 100 none (.ok true)).2 = [100] :=
  ⟨(c9_glucose_bounds 1200 none (.ok true)).1 (by norm_num),
   (c9_glucose_bounds 100 none (.ok true)).2.1 (by norm_num) (by simp)⟩

/-- C6: a string failing the `READING_PATTERN` shape is rejected wholesale by
the format gate: `_validate_readings_format` returns false and the gated
ingestion flow makes zero `insert_cgm_reading` calls, attempting no parse of
any token, and answers with the format-correction prompt. -/
theorem c6_format_gate (userId : Int) (s : String) (store : Nat → String)
    (h : validateReadingsFormat s = false) :
    gatedIngest userId s store =
      ([], "I didn't understand. Send readings like `95,110,102`.") := by
  unfold gatedIngest
  rw [if_neg (by simp [h])]

/-- Witness for C6 at the wrong-delimiter input `"95;110;102"`. -/
theorem c6_format_gate_witness :
    validateReadingsFormat "95;110;102" = false ∧
    gatedIngest 123 "95;110;102" (fun _ => "Successfully stored CGM reading") =
      ([], "I didn't understand. Send readings like `95,110,102`.") :=
  ⟨by decide, c6_format_gate 123 _ _ (by decide)⟩

/-- C7 (code bug): the current `CGMCollector.process_input` never changes
`retry_count` — whatever the LLM run returns, a normally-returning call
leaves the counter exactly as it was, so no sequence of shape-invalid
submissions can ever increment it to the claimed bound, contradicting the
repository's own `test_invalid_readings_retry_flow`. -/
theorem c7_retry_never_incremented (r : Nat) (uid : Option PyVal)
    (run : Except String String) (out : Nat × String)
    (h : cgmProcessInput r uid run = .ok out) : out.1 = r := by
  unfold cgmProcessInput at h
  split at h
  · cases h
  · cases h
    rfl

/-- Witness for C7 at the failing input of the retry test: a call with
`user_id = 123` and the shape-invalid message (absorbed by the agent-run
oracle) returns with `retry_count` still 0. -/
theorem c7_retry_never_incremented_witness :
    cgmProcessInput 0 (some (PyVal.int 123)) (.ok "agent reply") =
      .ok (0, "agent reply") ∧ (0, "agent reply").1 = (0 : Nat) :=
  ⟨rfl, c7_retry_never_incremented 0 (some (PyVal.int 123)) (.ok "agent reply")
    (0, "agent reply") rfl⟩

/-- C1 (code bug): on the empty string every required field is rejected with
an error naming the field, but on a whitespace-only string
`validate_field_value` returns `(True, "")` for every required field: the
required-value check sees a truthy pre-strip string, and the validator guard
`if field_info["validator"] and field_value` skips the field's validator
because the stripped value is falsy, so the function falls through to
`return True, field_value`. -/
theorem c1_required_whitespace_eval :
    validateFieldValue "first_name" (some "") =
      (false, some "First Name is required") ∧
    validateFieldValue "last_name" (some "") =
      (false, some "Last Name is required") ∧
    validateFieldValue "city" (some "") = (false, some "City is required") ∧
    validateFieldValue "email" (some "") = (false, some "Email is required") ∧
    validateFieldValue "date_of_birth" (some "") =
      (false, some "Date Of Birth is required") ∧
    validateFieldValue "first_name" (some "   ") = (true, some "") ∧
    validateFieldValue "last_name" (some "   ") = (true, some "") ∧
    validateFieldValue "city" (some "   ") = (true, some "") ∧
    validateFieldValue "email" (some "   ") = (true, some "") ∧
    validateFieldValue "date_of_birth" (some "   ") = (true, some "") := by
  decide

/-- C5 counterexample: the claim's stated value is wrong —
`validate_field_value("dietary_preference", "VEGAN")` does not return
`(True, "vegan")` (the function never lower-cases the cleaned value). -/
theorem c5_counterexample :
    validateFieldValue "dietary_preference" (some "VEGAN") ≠
      (true, some "vegan") := by
  decide

/-- C5 (amended): membership is checked case-insensitively, but the cleaned
value keeps the caller's casing: `validate("dietary_preference", "VEGAN")`
returns `(True, "VEGAN")`, and `validate("dietary_preference", "carnivore")`
returns `(False, e)` with `e` containing
`"vegetarian, non-vegetarian, vegan"`. -/
theorem c5_diet_validation :
    validateFieldValue "dietary_preference" (some "VEGAN") =
      (true, some "VEGAN") ∧
    validateFieldValue "dietary_preference" (some "carnivore") =
      (false,
        some "Dietary preference must be one of: vegetarian, non-vegetarian, vegan") ∧
    (∃ pre post : String,
      "Dietary preference must be one of: vegetarian, non-vegetarian, vegan" =
        pre ++ "vegetarian, non-vegetarian, vegan" ++ post) := by
  refine ⟨by decide, by decide, ⟨"Dietary preference must be one of: ", "", ?_⟩⟩
  decide

/-! ### Orchestrator phase analysis -/

theorem mealPhase_caught_none (env : Env) (ctx : Ctx) :
    (mealPhase env ctx).caught = none := by
  obtain ⟨g, u, col, cs, m, cc, nm⟩ := env
  unfold mealPhase
  dsimp only
  cases m <;> rfl

theorem cgmPhase_fault_ctx (env : Env) (ctx : Ctx) :
    (cgmPhase env ctx).caught = none ∨ (cgmPhase env ctx).ctx = ctx := by
  obtain ⟨g, u, col, cs, m, cc, nm⟩ := env
  unfold cgmPhase
  dsimp only
  split
  · cases col with
    | error f => exact Or.inr rfl
    | ok resp =>
      dsimp only
      split
      · exact Or.inl rfl
      · exact Or.inl rfl
  · cases cs with
    | error f => exact Or.inr rfl
    | ok resp => exact Or.inl rfl

theorem profilePhase_fault_ctx (env : Env) (ctx : Ctx) :
    (profilePhase env ctx).caught = none ∨
    (profilePhase env ctx).ctx = ctx ∨
    (profilePhase env ctx).ctx =
      ctxSet ctx "awaiting_profile_field" (PyVal.bool true) ∨
    (profilePhase env ctx).ctx =
      ctxSet ctx "awaiting_profile_field" (PyVal.bool false) := by
  obtain ⟨g, u, col, cs, m, cc, nm⟩ := env
  unfold profilePhase
  dsimp only
  split
  · cases u with
    | error f => exact Or.inr (Or.inl rfl)
    | ok resp =>
      dsimp only
      split
      · exact Or.inl rfl
      · cases cc with
        | error f => exact Or.inr (Or.inr (Or.inr rfl))
        | ok b =>
          cases b
          · dsimp only
            cases nm with
            | error f => exact Or.inr (Or.inr (Or.inr rfl))
            | ok nf =>
              dsimp only
              split
              · exact Or.inl rfl
              · exact Or.inl rfl
          · exact Or.inl rfl
  · cases g with
    | error f => exact Or.inr (Or.inl rfl)
    | ok resp =>
      dsimp only
      cases cc with
      | error f => exact Or.inr (Or.inl rfl)
      | ok b =>
        cases b
        · dsimp only
          cases nm with
          | error f => exact Or.inr (Or.inr (Or.inl rfl))
          | ok nf =>
            dsimp only
            split
            · exact Or.inl rfl
            · exact Or.inl rfl
        · exact Or.inl rfl

theorem profilePhase_trace_head_of_fresh (env : Env) (ctx : Ctx)
    (h : ctxFlag ctx "awaiting_profile_field" = false) :
    (profilePhase env ctx).trace.head? = some Call.greeterCall := by
  obtain ⟨g, u, col, cs, m, cc, nm⟩ := env
  unfold profilePhase
  dsimp only
  rw [if_neg (by simp [h])]
  cases g with
  | error f => rfl
  | ok resp =>
    dsimp only
    cases cc with
    | error f => rfl
    | ok b =>
      cases b
      · dsimp only
        cases nm with
        | error f => rfl
        | ok nf =>
          dsimp only
          split
          · rfl
          · rfl
      · rfl

/-- Every `handle_message` call is the auth-error result or a dispatch to one
of the three phase handlers. -/
theorem handleMessage_cases (env : Env) (ctx : Ctx) :
    handleMessage env ctx = hmCaught (Fault.validation authErrorMsg) ctx [] ∨
    handleMessage env ctx = profilePhase env ctx ∨
    handleMessage env ctx = cgmPhase env ctx ∨
    handleMessage env ctx = mealPhase env ctx := by
  unfold handleMessage
  rcases ctxGet ctx "user_id" with _ | v
  · exact Or.inl rfl
  · dsimp only
    split_ifs with h1 h2 h3
    · exact Or.inr (Or.inr (Or.inr rfl))
    · exact Or.inr (Or.inr (Or.inl rfl))
    · exact Or.inr (Or.inl rfl)
    · exact Or.inl rfl

/-- C3: with a missing `user_id` key or a non-integer `user_id` value, every
`handle_message` call returns the fixed authentication-error string (the
caught `ValidationError` text, not a raised fault), makes no sub-agent call
and no database call, and leaves the context exactly as it was. -/
theorem c3_auth_error (env : Env) (ctx : Ctx)
    (h : ctxHas ctx "user_id" = false ∨
         ∃ v, ctxGet ctx "user_id" = some v ∧ pyIsInstInt v = false) :
    handleMessage env ctx =
      ⟨"⚠️ Missing or invalid user ID. Please re-authenticate.", ctx, [],
        some (Fault.validation authErrorMsg)⟩ := by
  have hv : ctxGet ctx "user_id" = none ∨
      ∃ v, ctxGet ctx "user_id" = some v ∧ pyIsInstInt v = false := by
    rcases h with h' | h'
    · left
      unfold ctxHas at h'
      cases hca : ctxGet ctx "user_id" with
      | none => rfl
      | some w => rw [hca] at h'; simp at h'
    · exact Or.inr h'
  rcases hv with hn | ⟨v, hv1, hv2⟩
  · unfold handleMessage
    rw [hn]
    rfl
  · unfold handleMessage
    rw [hv1]
    dsimp only
    rw [if_pos (by simp [hv2])]
    rfl

/-- Witness for C3: a string-valued `user_id` is rejected with the fixed
message, no collaborator calls, and an unchanged context. -/
theorem c3_auth_error_witness :
    (∃ v, ctxGet [("user_id", PyVal.str "invalid")] "user_id" = some v ∧
       pyIsInstInt v = false) ∧
    handleMessage
        ⟨.ok "", .ok "", .ok "", .ok "", .ok "", .ok true, .ok ""⟩
        [("user_id", PyVal.str "invalid")] =
      ⟨"⚠️ Missing or invalid user ID. Please re-authenticate.",
        [("user_id", PyVal.str "invalid")], [],
        some (Fault.validation authErrorMsg)⟩ :=
  ⟨⟨PyVal.str "invalid", rfl, rfl⟩,
   c3_auth_error _ _ (Or.inr ⟨PyVal.str "invalid", rfl, rfl⟩)⟩

/-- C10: because Python's `bool` is a subclass of `int`, a context whose
`user_id` is `True` or `False` passes the `isinstance(user_id, int)`
authentication check, and `handle_message` proceeds into phase handling (its
first collaborator call is the greeter of the profile phase) instead of
returning the authentication error, which makes no collaborator call at
all. -/
theorem c10_bool_user_id (env : Env) (b : Bool) :
    pyIsInstInt (PyVal.bool b) = true ∧
    (handleMessage env [("user_id", PyVal.bool b)]).trace.head? =
      some Call.greeterCall := by
  refine ⟨rfl, ?_⟩
  have e : handleMessage env [("user_id", PyVal.bool b)] =
      profilePhase env [("user_id", PyVal.bool b)] := by
    unfold handleMessage
    rfl
  rw [e]
  exact profilePhase_trace_head_of_fresh env _ rfl

/-- C2 counterexample: the claim that no context mutation survives a caught
fault is false.  With the profile incomplete, a greeter that answers
normally, a completeness check that returns false, and a
`_get_next_missing_field` that raises `DatabaseError`, `handle_message`
catches the fault and returns the database-error string — but
`context["awaiting_profile_field"] = True` had already been applied, so the
context differs from its pre-call value. -/
theorem c2_counterexample :
    (handleMessage
        ⟨Except.ok "G", Except.ok "U", Except.ok "C", Except.ok "S",
         Except.ok "M", Except.ok false, Except.error Fault.database⟩
        [("user_id", PyVal.int 1)]).caught = some Fault.database ∧
    (handleMessage
        ⟨Except.ok "G", Except.ok "U", Except.ok "C", Except.ok "S",
         Except.ok "M", Except.ok false, Except.error Fault.database⟩
        [("user_id", PyVal.int 1)]).response =
      "⚠️ An error occurred while accessing your data. Please try again later." ∧
    (handleMessage
        ⟨Except.ok "G", Except.ok "U", Except.ok "C", Except.ok "S",
         Except.ok "M", Except.ok false, Except.error Fault.database⟩
        [("user_id", PyVal.int 1)]).ctx ≠ [("user_id", PyVal.int 1)] := by
  refine ⟨rfl, rfl, ?_⟩
  decide

/-- C2 (amended): whenever `handle_message` catches a fault and returns an
error string, the context is left exactly as it was before the call — except
possibly for the `awaiting_profile_field` key, which the profile phase may
have set (to `True` in the initial-collection branch, to `False` in the
field-update branch) before `_check_profile_complete` or
`_get_next_missing_field` raised.  Every other caught-fault path leaves the
context unchanged. -/
theorem c2_caught_fault_ctx (env : Env) (ctx : Ctx) (f : Fault)
    (h : (handleMessage env ctx).caught = some f) :
    (handleMessage env ctx).ctx = ctx ∨
    (handleMessage env ctx).ctx =
      ctxSet ctx "awaiting_profile_field" (PyVal.bool true) ∨
    (handleMessage env ctx).ctx =
      ctxSet ctx "awaiting_profile_field" (PyVal.bool false) := by
  rcases handleMessage_cases env ctx with hk | hk | hk | hk <;> rw [hk] at h ⊢
  · exact Or.inl rfl
  · rcases profilePhase_fault_ctx env ctx with hc | hctx
    · rw [hc] at h
      exact Option.noConfusion h
    · exact hctx
  · rcases cgmPhase_fault_ctx env ctx with hc | hctx
    · rw [hc] at h
      exact Option.noConfusion h
    · exact Or.inl hctx
  · rw [mealPhase_caught_none env ctx] at h
    exact Option.noConfusion h

/-- Witness for C2's amended statement at the counterexample's inputs. -/
theorem c2_caught_fault_ctx_witness :
    (handleMessage
        ⟨Except.ok "G", Except.ok "U", Except.ok "C", Except.ok "S",
         Except.ok "M", Except.ok false, Except.error Fault.database⟩
        [("user_id", PyVal.int 1)]).caught = some Fault.database ∧
    ((handleMessage
        ⟨Except.ok "G", Except.ok "U", Except.ok "C", Except.ok "S",
         Except.ok "M", Except.ok false, Except.error Fault.database⟩
        [("user_id", PyVal.int 1)]).ctx = [("user_id", PyVal.int 1)] ∨
     (handleMessage
        ⟨Except.ok "G", Except.ok "U", Except.ok "C", Except.ok "S",
         Except.ok "M", Except.ok false, Except.error Fault.database⟩
        [("user_id", PyVal.int 1)]).ctx =
       ctxSet [("user_id", PyVal.int 1)] "awaiting_profile_field"
         (PyVal.bool true) ∨
     (handleMessage
        ⟨Except.ok "G", Except.ok "U", Except.ok "C", Except.ok "S",
         Except.ok "M", Except.ok false, Except.error Fault.database⟩
        [("user_id", PyVal.int 1)]).ctx =
       ctxSet [("user_id", PyVal.int 1)] "awaiting_profile_field"
         (PyVal.bool false)) :=
  ⟨rfl, c2_caught_fault_ctx _ _ Fault.database rfl⟩

/-! ### Ingestion batch analysis (for C4) -/

theorem strHead_append {a : String} (b : String) {c : Char}
    (h : a.data.head? = some c) : (a ++ b).data.head? = some c := by
  rw [String.data_append]
  cases hd : a.data with
  | nil => rw [hd] at h; exact Option.noConfusion h
  | cons x t =>
    rw [hd] at h
    injection h with h
    subst h
    rfl

theorem ne_of_headChar {a b : String} {c d : Char} (ha : a.data.head? = some c)
    (hb : b.data.head? = some d) (hcd : c ≠ d) : a ≠ b := by
  intro h
  subst h
  rw [ha] at hb
  injection hb with hb
  exact hcd hb

theorem joinLines_cons (a : String) (l : List String) :
    ∃ rest, joinLines (a :: l) = a ++ rest := by
  cases l with
  | nil => exact ⟨"", (String.append_empty a).symm⟩
  | cons b t =>
    refine ⟨"\n" ++ joinLines (b :: t), ?_⟩
    rw [joinLines, String.append_assoc]

theorem ingestSuccessCount_le (vals : List Nat) (store : Nat → String) :
    ingestSuccessCount vals store ≤ vals.length := by
  unfold ingestSuccessCount ingestResults
  calc ((List.range vals.length).map store).countP
        (fun r => strContains r successMarker) ≤
      ((List.range vals.length).map store).length := List.countP_le_length _
    _ = vals.length := by simp

theorem ingestLead_ne_nudge (userId : Int) (vals : List Nat)
    (store : Nat → String) :
    ∀ s ∈ ingestLead userId vals store, s ≠ mealPlanNudge := by
  intro s hs
  unfold ingestLead at hs
  split_ifs at hs with h1 h2
  · rw [List.mem_singleton] at hs
    subst hs
    exact ne_of_headChar
      (strHead_append _ (strHead_append _ (strHead_append _ (strHead_append _
        (strHead_append _ (strHead_append _
          (rfl : ("✅ Saved " : String).data.head? = some '✅')))))))
      (rfl : mealPlanNudge.data.head? = some 'N') (by decide)
  · rw [List.mem_singleton] at hs
    subst hs
    exact ne_of_headChar
      (strHead_append _ (strHead_append _ (strHead_append _ (strHead_append _
        (rfl : ("⚠️ Failed to save any of the " : String).data.head? =
          some '⚠')))))
      (rfl : mealPlanNudge.data.head? = some 'N') (by decide)
  · exact absurd hs (List.not_mem_nil s)

theorem ingestErrors_ne_nudge (vals : List Nat) (store : Nat → String) :
    ∀ s ∈ ingestErrors vals store, s ≠ mealPlanNudge := by
  intro s hs
  unfold ingestErrors at hs
  rw [List.mem_filterMap] at hs
  obtain ⟨p, _, hf⟩ := hs
  split_ifs at hf
  · injection hf with hf
    subst hf
    exact ne_of_headChar
      (strHead_append _ (strHead_append _ (strHead_append _
        (rfl : ("- Reading " : String).data.head? = some '-'))))
      (rfl : mealPlanNudge.data.head? = some 'N') (by decide)

theorem nudge_not_mem_baseParts (userId : Int) (vals : List Nat)
    (store : Nat → String) :
    mealPlanNudge ∉ ingestBaseParts userId vals store := by
  intro hmem
  unfold ingestBaseParts at hmem
  rcases List.mem_append.mp hmem with h | h
  · exact ingestLead_ne_nudge userId vals store _ h rfl
  · split_ifs at h
    · rcases List.mem_cons.mp h with h | h
      · exact absurd h.symm (by decide)
      · exact ingestErrors_ne_nudge vals store _ h rfl
    · exact absurd h (List.not_mem_nil _)

theorem ingestParts_nudge_iff (userId : Int) (vals : List Nat)
    (store : Nat → String) :
    mealPlanNudge ∈ ingestParts userId vals store ↔
      (ingestSuccessCount vals store = vals.length ∧ 0 < vals.length) := by
  unfold ingestParts
  constructor
  · intro hmem
    rcases List.mem_append.mp hmem with h | h
    · exact absurd h (nudge_not_mem_baseParts userId vals store)
    · split_ifs at h with hc
      · exact ⟨hc.1, hc.1 ▸ hc.2⟩
      · exact absurd h (List.not_mem_nil _)
  · intro hc
    refine List.mem_append.mpr (Or.inr ?_)
    rw [if_pos ⟨hc.1, hc.1 ▸ hc.2⟩]
    exact List.mem_singleton.mpr rfl

theorem processCore_response_lead (userId : Int) (vals : List Nat)
    (store : Nat → String) (hsc : 0 < ingestSuccessCount vals store) :
    ∃ rest, (processCore userId vals store).response =
      "✅ Saved " ++ toString (ingestSuccessCount vals store) ++ " out of " ++
        toString vals.length ++ " readings for user #" ++ toString userId ++
        "." ++ rest := by
  have hn : 0 < vals.length := lt_of_lt_of_le hsc (ingestSuccessCount_le vals store)
  have hlead : ingestLead userId vals store =
      ["✅ Saved " ++ toString (ingestSuccessCount vals store) ++ " out of " ++
        toString vals.length ++ " readings for user #" ++ toString userId ++
        "."] := by
    unfold ingestLead
    rw [if_pos hsc]
  have hbp : ingestBaseParts userId vals store =
      ("✅ Saved " ++ toString (ingestSuccessCount vals store) ++ " out of " ++
        toString vals.length ++ " readings for user #" ++ toString userId ++
        ".") ::
        (if ingestErrors vals store ≠ [] then "Details:" :: ingestErrors vals store
         else []) := by
    unfold ingestBaseParts
    rw [hlead, List.singleton_append]
  have hparts : ingestParts userId vals store =
      ("✅ Saved " ++ toString (ingestSuccessCount vals store) ++ " out of " ++
        toString vals.length ++ " readings for user #" ++ toString userId ++
        ".") ::
        ((if ingestErrors vals store ≠ [] then "Details:" :: ingestErrors vals store
          else []) ++
         (if ingestSuccessCount vals store = vals.length ∧
             0 < ingestSuccessCount vals store then [mealPlanNudge] else [])) := by
    unfold ingestParts
    rw [hbp, List.cons_append]
  unfold processCore
  dsimp only
  rw [if_neg (by rw [hbp]; rintro ⟨hx, -⟩; exact List.noConfusion hx),
    if_neg (by omega), hparts]
  exact joinLines_cons _ _

/-- C4: on every input matching the `READING_PATTERN` shape, the batch
processor parses one numeric value per comma token, calls
`insert_cgm_reading` exactly once per token (never aborting the batch on a
per-reading failure), reports a success count equal to the number of store
results containing the success marker, leads the response with
`✅ Saved {successCount} out of {n} readings for user #{id}.` whenever the
success count is positive, and appends the meal-plan nudge to the response
parts if and only if every reading succeeded and there was at least one. -/
theorem c4_ingestion_batch (userId : Int) (s : String) (store : Nat → String)
    (h : validateReadingsFormat s = true) :
    ∃ vals : List Nat,
      parseTokens (splitOnCommaCL s.data) = some vals ∧
      processValidReadings userId s store =
        Except.ok (processCore userId vals store) ∧
      vals.length = (splitOnCommaCL s.data).length ∧
      (processCore userId vals store).calls =
        vals.map (fun v => (userId, v)) ∧
      ingestSuccessCount vals store =
        (ingestResults vals store).countP (fun r => strContains r successMarker) ∧
      (0 < ingestSuccessCount vals store →
        ∃ rest, (processCore userId vals store).response =
          "✅ Saved " ++ toString (ingestSuccessCount vals store) ++
            " out of " ++ toString vals.length ++ " readings for user #" ++
            toString userId ++ "." ++ rest) ∧
      (mealPlanNudge ∈ (processCore userId vals store).parts ↔
        (ingestSuccessCount vals store = vals.length ∧ 0 < vals.length)) := by
  refine ⟨(splitOnCommaCL s.data).map (fun t => digitsToNat (stripCL t)),
    parseTokens_of_format h, ?_, by simp, rfl, rfl, ?_, ?_⟩
  · unfold processValidReadings
    rw [parseTokens_of_format h]
  · exact processCore_response_lead userId _ store
  · exact ingestParts_nudge_iff userId _ store

/-- Witness for C4 at the spec's example: `"95, 110, 102"` for user 123 with
a store that always answers with the success marker. -/
theorem c4_ingestion_batch_witness :
    validateReadingsFormat "95, 110, 102" = true ∧
    (∃ vals : List Nat,
      parseTokens (splitOnCommaCL ("95, 110, 102" : String).data) = some vals ∧
      processValidReadings 123 "95, 110, 102" (fun _ => successMarker) =
        Except.ok (processCore 123 vals (fun _ => successMarker)) ∧
      vals.length = (splitOnCommaCL ("95, 110, 102" : String).data).length ∧
      (processCore 123 vals (fun _ => successMarker)).calls =
        vals.map (fun v => ((123 : Int), v)) ∧
      ingestSuccessCount vals (fun _ => successMarker) =
        (ingestResults vals (fun _ => successMarker)).countP
          (fun r => strContains r successMarker) ∧
      (0 < ingestSuccessCount vals (fun _ => successMarker) →
        ∃ rest, (processCore 123 vals (fun _ => successMarker)).response =
          "✅ Saved " ++ toString (ingestSuccessCount vals (fun _ => successMarker)) ++
            " out of " ++ toString vals.length ++ " readings for user #" ++
            toString (123 : Int) ++ "." ++ rest) ∧
      (mealPlanNudge ∈ (processCore 123 vals (fun _ => successMarker)).parts ↔
        (ingestSuccessCount vals (fun _ => successMarker) = vals.length ∧
          0 < vals.length))) :=
  ⟨by decide, c4_ingestion_batch 123 "95, 110, 102" (fun _ => successMarker)
    (by decide)⟩

end Aduro
